import Mathlib

/-!
Verification of the pypsrp client core (src/psrp/_async.py, _sync.py,
_host.py) against its natural-language specification.

The Python source is shallowly embedded: each Python method that a claim
touches becomes a Lean function over explicit state; exceptions become
`Except`/`Option` results; the external psrpcore codec and the transport are
modelled at the interface the spec gives for them (spec section 6).  Every
definition carries a comment naming the source lines it translates.
-/

namespace Psrp

/-- Pipeline states (psrpcore.types.PSInvocationState, used throughout
_async.py and _sync.py). -/
inductive PSInvocationState where
  | NotStarted
  | Running
  | Stopping
  | Stopped
  | Completed
  | Failed
  | Disconnected
deriving DecidableEq, BEq

/-- Runspace pool states (psrpcore.types.RunspacePoolState). -/
inductive RunspacePoolState where
  | BeforeOpen
  | Opening
  | NegotiationSent
  | NegotiationSucceeded
  | Opened
  | Disconnecting
  | Disconnected
  | Closing
  | Closed
  | Broken
deriving DecidableEq, BEq

/-- The parts of a psrpcore ErrorRecord that the client core builds or
inspects: `ErrorRecord(Exception=NETException(msg),
FullyQualifiedErrorId=..., CategoryInfo=ErrorCategoryInfo(Reason=...))`
(_async.py lines 700-706, _sync.py lines 560-566). -/
structure ErrorRecord where
  exceptionMessage : String
  fullyQualifiedErrorId : String
  categoryReason : String
deriving DecidableEq, BEq

/-- Opaque serialized values ferried by the protocol (pipeline output,
host-call return values). -/
inductive PSValue where
  | int (n : Int)
  | str (s : String)
  | bool (b : Bool)
  | null
deriving DecidableEq, BEq

/-! ## Claim C1 - had_errors -/

/-- The state of an `AsyncPipeline` that `had_errors` reads: the error
stream (`self.stream_error`, an AsyncPSDataCollection of ErrorRecord,
_async.py line 749) and the pipeline state. -/
structure AsyncPipelineM where
  stream_error : List ErrorRecord
  state : PSInvocationState
deriving DecidableEq

/-- _async.py lines 762-773: `return len(self.stream_error) > 0`. -/
def AsyncPipelineM.had_errors (p : AsyncPipelineM) : Bool :=
  decide (p.stream_error.length > 0)

/-- The state of a sync `Pipeline` that `had_errors` reads: the error
stream (`self.streams["error"]`, a PSDataStream, _sync.py lines 382-392)
and the pipeline state. -/
structure SyncPipelineM where
  streams_error : List ErrorRecord
  state : PSInvocationState
deriving DecidableEq

/-- _sync.py lines 394-396: `return self.state == PSInvocationState.Failed`. -/
def SyncPipelineM.had_errors (p : SyncPipelineM) : Bool :=
  p.state == PSInvocationState.Failed

/-- An arbitrary concrete error record, used as the failing input. -/
def c1Record : ErrorRecord :=
  { exceptionMessage := "boom"
    fullyQualifiedErrorId := "Microsoft.PowerShell.Commands.WriteErrorException"
    categoryReason := "WriteErrorException" }

/-- Claim C1: the async facade derives `had_errors` from the error stream
(`had_errors = true` iff the stream is non-empty), but the sync facade
computes `state == Failed` instead: a sync pipeline that completed with one
record on its error stream reports `had_errors = false`, and a sync pipeline
that failed with an empty error stream reports `had_errors = true`.  This
evaluates both facades at those inputs. -/
theorem c1_had_errors_sync_divergence :
    (∀ p : AsyncPipelineM, p.had_errors = true ↔ p.stream_error.length > 0) ∧
    SyncPipelineM.had_errors { streams_error := [c1Record], state := .Completed } = false ∧
    ([c1Record] : List ErrorRecord).length > 0 ∧
    SyncPipelineM.had_errors { streams_error := [], state := .Failed } = true ∧
    AsyncPipelineM.had_errors { stream_error := [c1Record], state := .Completed } = true := by
  refine ⟨fun p => ?_, rfl, by simp, rfl, rfl⟩
  simp [AsyncPipelineM.had_errors]

/-! ## Claim C3 - MessageResult (ResultWaiter) -/

/-- The PSRP event classes the dispatcher routes (the psrpcore event types
imported at _async.py lines 10-36), as a kind tag: `isinstance(value,
self._event_type)` becomes a comparison of kinds. -/
inductive EventKind where
  | sessionCapability
  | runspacePoolInitData
  | applicationPrivateData
  | encryptedSessionKey
  | runspacePoolState
  | pipelineState
  | pipelineOutput
  | userEvent
  | runspacePoolHostCall
  | pipelineHostCall
  | debugRecord
  | errorRecord
  | informationRecord
  | progressRecord
  | verboseRecord
  | warningRecord
  | getRunspaceAvailability
  | setRunspaceAvailability
deriving DecidableEq, BEq

/-- The inbound PSRP events, with the payload fields the client core reads
(`event.state`, `event.reason`, `event.record`, `event.data`, `event.ci`,
`event.success`, `event.count`). -/
inductive PSRPEvent where
  | sessionCapability
  | runspacePoolInitData
  | applicationPrivateData
  | encryptedSessionKey
  | runspacePoolState (state : RunspacePoolState)
  | pipelineState (state : PSInvocationState) (reason : Option String)
  | pipelineOutput (data : PSValue)
  | userEvent
  | runspacePoolHostCall (ci : Int)
  | pipelineHostCall (ci : Int)
  | debugRecord (record : ErrorRecord)
  | errorRecord (record : ErrorRecord)
  | informationRecord (record : ErrorRecord)
  | progressRecord (record : ErrorRecord)
  | verboseRecord (record : ErrorRecord)
  | warningRecord (record : ErrorRecord)
  | getRunspaceAvailability (ci : Int) (count : Nat)
  | setRunspaceAvailability (ci : Int) (success : Bool)
deriving DecidableEq, BEq

/-- The event class of an event: what `isinstance` dispatches on. -/
def PSRPEvent.kind : PSRPEvent → EventKind
  | .sessionCapability => .sessionCapability
  | .runspacePoolInitData => .runspacePoolInitData
  | .applicationPrivateData => .applicationPrivateData
  | .encryptedSessionKey => .encryptedSessionKey
  | .runspacePoolState _ => .runspacePoolState
  | .pipelineState _ _ => .pipelineState
  | .pipelineOutput _ => .pipelineOutput
  | .userEvent => .userEvent
  | .runspacePoolHostCall _ => .runspacePoolHostCall
  | .pipelineHostCall _ => .pipelineHostCall
  | .debugRecord _ => .debugRecord
  | .errorRecord _ => .errorRecord
  | .informationRecord _ => .informationRecord
  | .progressRecord _ => .progressRecord
  | .verboseRecord _ => .verboseRecord
  | .warningRecord _ => .warningRecord
  | .getRunspaceAvailability _ _ => .getRunspaceAvailability
  | .setRunspaceAvailability _ _ => .setRunspaceAvailability

/-- `MessageResult` (_async.py lines 193-254): declared event kind, optional
condition, the asyncio.Event flag (`self._event`) and the captured result
(`self._result`). -/
structure MessageResult where
  event_type : EventKind
  condition : Option (PSRPEvent → Bool)
  eventFlag : Bool
  result : Option PSRPEvent

/-- The boolean guard of `MessageResult.set` (_async.py line 247):
`isinstance(value, self._event_type) and (not self._condition or
self._condition(value))`.  The condition is only consulted once the
isinstance check passed, which the short-circuit `&&` preserves. -/
def MessageResult.accepts (m : MessageResult) (value : PSRPEvent) : Bool :=
  value.kind == m.event_type &&
    (match m.condition with
     | none => true
     | some c => c value)

/-- _async.py lines 231-254: on a match, store the result, set the event
flag and return `True`; otherwise leave the waiter unchanged and return
`False`.  Nothing in the body consults `self._event` or `self._result`. -/
def MessageResult.set (m : MessageResult) (value : PSRPEvent) :
    MessageResult × Bool :=
  if m.accepts value then
    ({ m with result := some value, eventFlag := true }, true)
  else
    (m, false)

/-- The result-handler sweep at the end of event dispatch (_async.py lines
664-666 and 1059-1061): `for handler in list(self._result_handler): if
handler.set(event): self._result_handler.remove(handler)`.  A handler whose
`set` returns true is removed from the pending list; the others are kept
unchanged. -/
def runResultHandlers : List MessageResult → PSRPEvent → List MessageResult
  | [], _ => []
  | h :: rest, e =>
      if (h.set e).2 then runResultHandlers rest e
      else h :: runResultHandlers rest e

/-- A concrete waiter for pipeline-state events with no condition, as armed
by `AsyncRunspacePool.open` arms one for pool-state events (_async.py line
496): kind check only. -/
def c3Waiter : MessageResult :=
  { event_type := .pipelineState, condition := none, eventFlag := false, result := none }

/-- Claim C3 counterexample: `set` succeeds twice in a row on the same
waiter.  The first call returns true and resolves the waiter; the second
call, on the resolved waiter, returns true again (and overwrites the
captured event), so it is false that every `set` call after a successful one
returns false. -/
theorem c3_counterexample :
    (c3Waiter.set (.pipelineState .Completed none)).2 = true ∧
    ((c3Waiter.set (.pipelineState .Completed none)).1.set
        (.pipelineState .Failed (some "second"))).2 = true := by
  exact ⟨rfl, rfl⟩

/-- Claim C3 amended: `set` returns true exactly when the event matches the
declared kind and the optional condition, regardless of whether the waiter
is already resolved (its outcome ignores the event flag and the stored
result); at-most-once delivery holds only through the dispatcher, which
removes a handler from the pending list as soon as one `set` returns true,
so every handler still pending after a dispatch is one whose `set` returned
false. -/
theorem c3_set_not_one_shot (m : MessageResult) (v e : PSRPEvent)
    (b : Bool) (r : Option PSRPEvent) (hs : List MessageResult) :
    (({ m with eventFlag := b, result := r } : MessageResult).set v).2 = (m.set v).2 ∧
    (m.set v).2 = m.accepts v ∧
    ((runResultHandlers hs e).all fun h => !(h.set e).2) = true := by
  constructor
  · cases m with
    | mk t c fl res =>
      simp only [MessageResult.set, MessageResult.accepts]
      split <;> simp_all
  constructor
  · simp only [MessageResult.set]
    split <;> simp_all
  · induction hs with
    | nil => rfl
    | cons h rest ih =>
      simp only [runResultHandlers]
      by_cases hset : (h.set e).2 = true
      · simp [hset, ih]
      · simp only [Bool.not_eq_true] at hset
        simp [hset, ih]

/-! ## Claim C9 - availability operations and null call identifiers -/

/-- `await event.wait()` under the dispatcher: the first inbound event the
armed waiter accepts resolves it (the dispatcher offers every event to the
waiter through `MessageResult.set`, _async.py lines 664-666, and the first
successful `set` releases `wait`, lines 216-229).  `none` when no event of
the incoming sequence is accepted (the wait never returns). -/
def waitFirstMatch (w : MessageResult) : List PSRPEvent → Option PSRPEvent
  | [] => none
  | e :: rest => if (w.set e).2 then some e else waitFirstMatch w rest

/-- The waiter `_send_set_runspace_availability_ci` arms (_async.py line
729): `MessageResult(SetRunspaceAvailabilityEvent, lambda e: e.ci == ci)`. -/
def setAvailabilityWaiter (ci : Int) : MessageResult :=
  { event_type := .setRunspaceAvailability
    condition := some fun e =>
      match e with
      | .setRunspaceAvailability c _ => c == ci
      | _ => false
    eventFlag := false
    result := none }

/-- What an availability operation did: the value it returned (`none` when
its wait never resolves), how many times it called
`self.connection.send_all` and how many waiters it armed. -/
structure AvailabilityOpOutcome where
  result : Option Bool
  sendAllCalls : Nat
  waitersArmed : Nat
deriving DecidableEq

/-- The `success` payload of a SetRunspaceAvailability event. -/
def PSRPEvent.availSuccess : PSRPEvent → Option Bool
  | .setRunspaceAvailability _ s => some s
  | _ => none

/-- `AsyncRunspacePool._send_set_runspace_availability_ci` (_async.py lines
719-735), shared by `reset_runspace_state`, `set_max_runspaces` and
`set_min_runspaces` (lines 544-604): when the codec returned `ci = None`,
return `True` at once; otherwise arm the ci-matching waiter, `send_all`,
wait for the matching event and return its `success`. -/
def sendSetRunspaceAvailabilityCi (ci : Option Int)
    (incoming : List PSRPEvent) : AvailabilityOpOutcome :=
  match ci with
  | none => { result := some true, sendAllCalls := 0, waitersArmed := 0 }
  | some c =>
      match waitFirstMatch (setAvailabilityWaiter c) incoming with
      | none => { result := none, sendAllCalls := 1, waitersArmed := 1 }
      | some e => { result := e.availSuccess, sendAllCalls := 1, waitersArmed := 1 }

/-- The events the sync listener records in `_ci_table` under their `ci`
(`_get_event_registrations`, _sync.py lines 163-185: PipelineHostCall,
GetRunspaceAvailability, SetRunspaceAvailability and RunspacePoolHostCall
events), restricted to the identifier `c` the wait is keyed on. -/
def ciTableRecords (c : Int) : PSRPEvent → Bool
  | .setRunspaceAvailability ci _ => ci == c
  | .getRunspaceAvailability ci _ => ci == c
  | .pipelineHostCall ci => ci == c
  | .runspacePoolHostCall ci => ci == c
  | _ => false

/-- The sync wait of `_send_and_wait_for` with predicate `lambda: ci in
self._ci_table` (_sync.py lines 328-346): the listener records each inbound
host-call/availability event in the ci table and notifies the condition, so
the wait returns at the first inbound event that puts `c` into the table,
and the method pops exactly that entry.  `none` when no such event ever
arrives (the wait never returns). -/
def syncWaitCi (c : Int) : List PSRPEvent → Option PSRPEvent
  | [] => none
  | e :: rest => if ciTableRecords c e then some e else syncWaitCi c rest

/-- What the sync availability helper did: the value it returned (`none`
when it raises or waits forever), how many times it called `send_all`, and
whether it waited on the condition at all. -/
structure SyncAvailabilityOutcome where
  result : Option Bool
  sendAllCalls : Nat
  waited : Bool
deriving DecidableEq

/-- `RunspacePool._validate_runspace_availability` (_sync.py lines 337-346),
shared by the sync `reset_runspace_state`, `set_max_runspaces` and
`set_min_runspaces` (lines 274-295): `ci = None` short-circuits to `True`
without sending or waiting; otherwise `_send_and_wait_for` flushes once and
waits until `ci in self._ci_table`, and the method pops that entry and
returns its `success` attribute (`availSuccess` is `none` for a popped
event with no `success`, where Python would raise). -/
def validateRunspaceAvailability (ci : Option Int)
    (incoming : List PSRPEvent) : SyncAvailabilityOutcome :=
  match ci with
  | none => { result := some true, sendAllCalls := 0, waited := false }
  | some c =>
      match syncWaitCi c incoming with
      | none => { result := none, sendAllCalls := 1, waited := true }
      | some e => { result := e.availSuccess, sendAllCalls := 1, waited := true }

/-- A SetRunspaceAvailability event carrying the call identifier `ci`. -/
def availMatches (ci : Int) : PSRPEvent → Bool
  | .setRunspaceAvailability c _ => c == ci
  | _ => false

/-- The availability waiter accepts exactly the SetRunspaceAvailability
events whose `ci` equals the armed identifier. -/
theorem setAvailabilityWaiter_accepts (ci : Int) (e : PSRPEvent) :
    (setAvailabilityWaiter ci).accepts e = availMatches ci e := by
  cases e <;> rfl

/-- The sync wait resolves on exactly the first inbound event the listener
records under the requested identifier. -/
theorem syncWaitCi_eq_find (c : Int) (incoming : List PSRPEvent) :
    syncWaitCi c incoming = incoming.find? (ciTableRecords c) := by
  induction incoming with
  | nil => rfl
  | cons e rest ih =>
    rw [syncWaitCi, List.find?]
    by_cases h : ciTableRecords c e = true
    · simp [h]
    · simp only [Bool.not_eq_true] at h
      simp [h, ih]

/-- Claim C9: with a null call identifier every availability operation
returns true while sending nothing, arming no waiter (async) and waiting on
nothing (sync); with `ci = some c` the async helper sends once, arms one
waiter, that waiter resolves on exactly the first SetRunspaceAvailability
event whose `ci` equals `c`, and the operation returns that event's
`success` flag; the sync helper likewise sends once, waits until the
listener has recorded an event under `c`, and returns the success flag of
the popped entry — in particular, when that first recorded event is the
SetRunspaceAvailability event with `ci = c` carrying `success = s`, the
operation returns `s`. -/
theorem c9_availability_ci (c : Int) (incoming : List PSRPEvent) :
    sendSetRunspaceAvailabilityCi none incoming
      = { result := some true, sendAllCalls := 0, waitersArmed := 0 } ∧
    validateRunspaceAvailability none incoming
      = { result := some true, sendAllCalls := 0, waited := false } ∧
    waitFirstMatch (setAvailabilityWaiter c) incoming
      = incoming.find? (availMatches c) ∧
    (sendSetRunspaceAvailabilityCi (some c) incoming).result
      = (incoming.find? (availMatches c)).bind PSRPEvent.availSuccess ∧
    (sendSetRunspaceAvailabilityCi (some c) incoming).sendAllCalls = 1 ∧
    (sendSetRunspaceAvailabilityCi (some c) incoming).waitersArmed = 1 ∧
    (validateRunspaceAvailability (some c) incoming).result
      = (incoming.find? (ciTableRecords c)).bind PSRPEvent.availSuccess ∧
    (validateRunspaceAvailability (some c) incoming).sendAllCalls = 1 ∧
    (validateRunspaceAvailability (some c) incoming).waited = true ∧
    (∀ s : Bool,
      incoming.find? (ciTableRecords c) = some (.setRunspaceAvailability c s) →
      (validateRunspaceAvailability (some c) incoming).result = some s) := by
  have hwait : waitFirstMatch (setAvailabilityWaiter c) incoming
      = incoming.find? (availMatches c) := by
    induction incoming with
    | nil => rfl
    | cons e rest ih =>
      have hacc : ((setAvailabilityWaiter c).set e).2
          = (setAvailabilityWaiter c).accepts e := by
        simp only [MessageResult.set]
        split <;> simp_all
      rw [waitFirstMatch, List.find?, hacc, setAvailabilityWaiter_accepts]
      by_cases h : availMatches c e = true
      · simp [h]
      · simp only [Bool.not_eq_true] at h
        simp [h, ih]
  have hsync := syncWaitCi_eq_find c incoming
  refine ⟨rfl, rfl, hwait, ?_, ?_, ?_, ?_, ?_, ?_, ?_⟩
  · simp only [sendSetRunspaceAvailabilityCi, hwait]
    cases incoming.find? (availMatches c) <;> rfl
  · simp only [sendSetRunspaceAvailabilityCi]
    cases waitFirstMatch (setAvailabilityWaiter c) incoming <;> rfl
  · simp only [sendSetRunspaceAvailabilityCi]
    cases waitFirstMatch (setAvailabilityWaiter c) incoming <;> rfl
  · simp only [validateRunspaceAvailability, hsync]
    cases incoming.find? (ciTableRecords c) <;> rfl
  · simp only [validateRunspaceAvailability]
    cases h : syncWaitCi c incoming <;> rfl
  · simp only [validateRunspaceAvailability]
    cases h : syncWaitCi c incoming <;> rfl
  · intro s hfind
    simp only [validateRunspaceAvailability, hsync, hfind]
    rfl

/-! ## Claim C4 - completed data collections -/

/-- The error kinds an application-side stream mutation can raise.
`ClosedCollection` stands for the `ValueError("Objects cannot be added to a
closed buffer")` of _async.py lines 140 and 156. -/
inductive StreamError where
  | ClosedCollection
deriving DecidableEq, BEq

/-- The subscriber events a protocol append fires (`data_adding` before the
insertion, `data_added` after it, _async.py lines 169-175). -/
inductive StreamEvent (α : Type) where
  | dataAdding (value : α)
  | dataAdded (value : α)
deriving DecidableEq, BEq

/-- `AsyncPSDataCollection` (_async.py lines 78-190): the underlying list,
the completion flag and the iterator policy flag. -/
structure AsyncPSDataCollection (α : Type) where
  items : List α
  blocking_iterator : Bool
  completed : Bool
deriving DecidableEq

/-- Application-side `append` (_async.py lines 135-141): raises on a closed
buffer, otherwise appends. -/
def AsyncPSDataCollection.append (c : AsyncPSDataCollection α) (value : α) :
    Except StreamError (AsyncPSDataCollection α) :=
  if c.completed then .error .ClosedCollection
  else .ok { c with items := c.items ++ [value] }

/-- Application-side `insert` (_async.py lines 150-157): raises on a closed
buffer, otherwise inserts at the index (Python list.insert clamps an
out-of-range index, as take/drop do). -/
def AsyncPSDataCollection.insert (c : AsyncPSDataCollection α)
    (index : Nat) (value : α) :
    Except StreamError (AsyncPSDataCollection α) :=
  if c.completed then .error .ClosedCollection
  else .ok { c with items := c.items.take index ++ [value] ++ c.items.drop index }

/-- Protocol-side `_append` (_async.py lines 159-175): on a completed
collection the record is silently dropped and no event fires; otherwise
`data_adding` fires, the value is appended, and `data_added` fires. -/
def AsyncPSDataCollection.protocolAppend (c : AsyncPSDataCollection α)
    (value : α) : AsyncPSDataCollection α × List (StreamEvent α) :=
  if c.completed then (c, [])
  else ({ c with items := c.items ++ [value] },
        [.dataAdding value, .dataAdded value])

/-- `PSDataStream` (_sync.py lines 44-80): the underlying list, the queue of
added indices (`None` is the end-of-stream marker `finalize` enqueues) and
the `_complete` flag. -/
structure PSDataStream (α : Type) where
  items : List α
  added_idx : List (Option Nat)
  complete : Bool
deriving DecidableEq

/-- Sync `PSDataStream.append` (_sync.py lines 62-65): `if not
self._complete: super().append(value); self._added_idx.put(len(self) - 1)`.
The body raises nothing, so it always returns `.ok`; on a completed stream
it is a silent no-op.  The same error channel as the async `append` is used
so the two facades can be compared. -/
def PSDataStream.append (s : PSDataStream α) (value : α) :
    Except StreamError (PSDataStream α) :=
  if s.complete then .ok s
  else .ok { s with items := s.items ++ [value],
                    added_idx := s.added_idx ++ [some s.items.length] }

/-- Claim C4 counterexample: an application-originated `append` on a
completed sync `PSDataStream` does not fail with `ClosedCollection`; it
returns normally and leaves the stream unchanged. -/
theorem c4_counterexample :
    PSDataStream.append { items := [(1 : Int)], added_idx := [some 0], complete := true } 5
      = .ok { items := [(1 : Int)], added_idx := [some 0], complete := true } ∧
    PSDataStream.append { items := [(1 : Int)], added_idx := [some 0], complete := true } 5
      ≠ .error .ClosedCollection := by
  exact ⟨rfl, by simp [PSDataStream.append]⟩

/-- Claim C4 amended: on a completed collection a protocol-originated append
is a no-op that fires no events (so the length is unchanged); in the async
facade an application-originated `append` or `insert` fails with
`ClosedCollection`; the sync facade's `PSDataStream.append` instead drops
the value silently and reports no error. -/
theorem c4_completed_collection (α : Type) (c : AsyncPSDataCollection α)
    (s : PSDataStream α) (v : α) (i : Nat)
    (hc : c.completed = true) (hs : s.complete = true) :
    c.protocolAppend v = (c, []) ∧
    (c.protocolAppend v).1.items.length = c.items.length ∧
    c.append v = .error .ClosedCollection ∧
    c.insert i v = .error .ClosedCollection ∧
    s.append v = .ok s := by
  refine ⟨?_, ?_, ?_, ?_, ?_⟩ <;>
    simp [AsyncPSDataCollection.protocolAppend, AsyncPSDataCollection.append,
      AsyncPSDataCollection.insert, PSDataStream.append, hc, hs]

/-- Witness for the amended C4 at a concrete completed collection and
stream. -/
theorem c4_completed_collection_witness :
    AsyncPSDataCollection.protocolAppend
        { items := [(7 : Int)], blocking_iterator := false, completed := true } 9
      = ({ items := [(7 : Int)], blocking_iterator := false, completed := true }, []) ∧
    AsyncPSDataCollection.append
        { items := [(7 : Int)], blocking_iterator := false, completed := true } 9
      = .error .ClosedCollection ∧
    PSDataStream.append { items := ([] : List Int), added_idx := [], complete := true } 9
      = .ok { items := ([] : List Int), added_idx := [], complete := true } := by
  have h := c4_completed_collection Int
    { items := [(7 : Int)], blocking_iterator := false, completed := true }
    { items := ([] : List Int), added_idx := [], complete := true }
    9 0 rfl rfl
  exact ⟨h.1, h.2.2.1, h.2.2.2.2⟩

/-! ## Claim C5 - terminal state translation at the invoke boundary -/

/-- The exceptions `_pipelines_task` raises (_exceptions.PipelineFailed and
PipelineStopped, raised at _async.py lines 1084-1090). -/
inductive PipelineError where
  | pipelineFailed (msg : String)
  | pipelineStopped (msg : String)
deriving DecidableEq, BEq

/-- The tail of `AsyncPipeline._pipelines_task` (_async.py lines 1082-1092),
which the task returned by `invoke_async` runs once the terminal
PipelineStateEvent arrived: `Failed` raises PipelineFailed with
`str(state.reason)` or `"Unknown failure."`; `Stopped` raises
PipelineStopped with the reason or `"The pipeline has been stopped."`; any
other state returns `[]` when `self._explicit_output` is set, else the
collected output list. -/
def pipelinesTaskResult (state : PSInvocationState) (reason : Option String)
    (explicit_output : Bool) (stream_output : List PSValue) :
    Except PipelineError (List PSValue) :=
  match state with
  | .Failed => .error (.pipelineFailed (reason.getD "Unknown failure."))
  | .Stopped => .error (.pipelineStopped (reason.getD "The pipeline has been stopped."))
  | _ => .ok (if explicit_output then [] else stream_output)

/-- The sync counterpart: `Pipeline._on_state` (_sync.py lines 517-533)
closes the pipeline, finalizes every stream and sets the completed event —
it never branches on the event's state and raises nothing — and
`PipelineTask.wait` (_sync.py lines 92-95) then returns the task-owned
output stream, which is `none` when the caller supplied an explicit output
stream (`_new_task`, lines 496-515).  The terminal state and reason are
taken as arguments to show the result does not depend on them. -/
def syncInvokeAwait (_state : PSInvocationState) (_reason : Option String)
    (task_output : Option (List PSValue)) :
    Except PipelineError (Option (List PSValue)) :=
  .ok task_output

/-- Claim C5 counterexample: awaiting a sync invoke whose pipeline reached
`Failed` with reason "kaboom" returns the output stream normally; no
PipelineFailed is raised. -/
theorem c5_counterexample :
    syncInvokeAwait .Failed (some "kaboom") (some [.str "partial-output"])
      = .ok (some [.str "partial-output"]) ∧
    (∀ err : PipelineError,
      syncInvokeAwait .Failed (some "kaboom") (some [.str "partial-output"])
        ≠ .error err) := by
  exact ⟨rfl, fun err h => by simp [syncInvokeAwait] at h⟩

/-- Claim C5 amended: the translation holds for the async facade — `Failed`
raises PipelineFailed with the remote reason (or "Unknown failure."),
`Stopped` raises PipelineStopped with the reason (or "The pipeline has been
stopped."), and every other terminal state returns the output list, empty
when the caller supplied an explicit output stream.  The sync facade does
not translate: its task completes and `wait` returns the output stream (or
`none` for a caller-supplied stream) whatever the terminal state. -/
theorem c5_invoke_translation (state : PSInvocationState)
    (reason : Option String) (explicit_output : Bool)
    (stream_output : List PSValue) (task_output : Option (List PSValue))
    (h1 : state ≠ .Failed) (h2 : state ≠ .Stopped) :
    pipelinesTaskResult .Failed reason explicit_output stream_output
      = .error (.pipelineFailed (reason.getD "Unknown failure.")) ∧
    pipelinesTaskResult .Stopped reason explicit_output stream_output
      = .error (.pipelineStopped (reason.getD "The pipeline has been stopped.")) ∧
    pipelinesTaskResult state reason explicit_output stream_output
      = .ok (if explicit_output then [] else stream_output) ∧
    pipelinesTaskResult state reason true stream_output = .ok [] ∧
    syncInvokeAwait state reason task_output = .ok task_output := by
    refine ⟨rfl, rfl, ?_, ?_, rfl⟩ <;> cases state <;> simp_all [pipelinesTaskResult]

/-- Witness for the amended C5 at the Completed state. -/
theorem c5_invoke_translation_witness :
    pipelinesTaskResult .Completed (some "r") false [.int 3] = .ok [.int 3] ∧
    pipelinesTaskResult .Failed (some "r") false [.int 3]
      = .error (.pipelineFailed "r") := by
  have h := c5_invoke_translation .Completed (some "r") false [.int 3] none
    (by decide) (by decide)
  exact ⟨h.2.2.1, h.1⟩

/-! ## Claim C6 - runspace pool construction -/

/-- The codec's `ClientRunspacePool` at the interface the core uses
(spec section 6: it stores and exposes the min/max runspace counts the
facade passes in at _async.py lines 392-400 and _sync.py lines 110-118;
psrpcore itself is an external collaborator). -/
structure ClientRunspacePool where
  min_runspaces : Int
  max_runspaces : Int
deriving DecidableEq

/-- The error kind of a rejected construction.  `ConfigInvalid` stands for
the `ValueError("min_runspaces must be greater than 0 and max_runspaces
must be greater than min_runspaces.")` of _async.py lines 371-374. -/
inductive PoolError where
  | ConfigInvalid
deriving DecidableEq, BEq

/-- The part of an `AsyncRunspacePool` the claim reads: the codec pool
(`self._pool`). -/
structure AsyncRunspacePoolM where
  pool : ClientRunspacePool
deriving DecidableEq

/-- The `min_runspaces` property (_async.py lines 426-429) delegates to the
codec pool. -/
def AsyncRunspacePoolM.min_runspaces (p : AsyncRunspacePoolM) : Int :=
  p.pool.min_runspaces

/-- The `max_runspaces` property (_async.py lines 421-424) delegates to the
codec pool. -/
def AsyncRunspacePoolM.max_runspaces (p : AsyncRunspacePoolM) : Int :=
  p.pool.max_runspaces

/-- `AsyncRunspacePool.__init__` (_async.py lines 360-400): reject
`min_runspaces < 1 or max_runspaces < min_runspaces` with a ValueError,
otherwise hand the values to the codec pool. -/
def asyncRunspacePoolInit (min_runspaces max_runspaces : Int) :
    Except PoolError AsyncRunspacePoolM :=
  if min_runspaces < 1 ∨ max_runspaces < min_runspaces then
    .error .ConfigInvalid
  else
    .ok { pool := { min_runspaces := min_runspaces, max_runspaces := max_runspaces } }

/-- The part of the sync `RunspacePool` the claim reads. -/
structure SyncRunspacePoolM where
  pool : ClientRunspacePool
deriving DecidableEq

/-- Sync `RunspacePool.__init__` (_sync.py lines 99-129): no validation at
all; the values go straight to the codec pool. -/
def syncRunspacePoolInit (min_runspaces max_runspaces : Int) :
    SyncRunspacePoolM :=
  { pool := { min_runspaces := min_runspaces, max_runspaces := max_runspaces } }

/-- Claim C6 counterexample: constructing the sync `RunspacePool` with
`min_runspaces = 0` does not fail with `ConfigInvalid` — the constructor has
no validation — and yields a pool violating `1 ≤ min_runspaces`. -/
theorem c6_counterexample :
    (syncRunspacePoolInit 0 1).pool.min_runspaces = 0 ∧
    ¬ (1 ≤ (syncRunspacePoolInit 0 1).pool.min_runspaces) := by
  exact ⟨rfl, by decide⟩

/-- Claim C6 amended: the async facade rejects `min_runspaces < 1` or
`max_runspaces < min_runspaces` with `ConfigInvalid`, and for every other
pair construction succeeds with `1 ≤ min_runspaces ≤ max_runspaces` holding
thereafter; the sync facade constructs without validating and stores the
values as given. -/
theorem c6_pool_init (a b c d : Int) (hbad : c < 1 ∨ d < c)
    (h1 : 1 ≤ a) (h2 : a ≤ b) :
    asyncRunspacePoolInit c d = .error .ConfigInvalid ∧
    (∃ p : AsyncRunspacePoolM, asyncRunspacePoolInit a b = .ok p ∧
      1 ≤ p.min_runspaces ∧ p.min_runspaces ≤ p.max_runspaces) ∧
    (syncRunspacePoolInit c d).pool.min_runspaces = c ∧
    (syncRunspacePoolInit c d).pool.max_runspaces = d := by
  refine ⟨?_, ?_, rfl, rfl⟩
  · rw [asyncRunspacePoolInit, if_pos hbad]
  · refine ⟨{ pool := { min_runspaces := a, max_runspaces := b } }, ?_, h1, h2⟩
    rw [asyncRunspacePoolInit, if_neg (by omega)]

/-- Witness for the amended C6 at concrete counts. -/
theorem c6_pool_init_witness :
    asyncRunspacePoolInit 0 1 = .error .ConfigInvalid ∧
    (∃ p : AsyncRunspacePoolM, asyncRunspacePoolInit 1 2 = .ok p ∧
      1 ≤ p.min_runspaces ∧ p.min_runspaces ≤ p.max_runspaces) := by
  have h := c6_pool_init 1 2 0 1 (by decide) (by decide) (by decide)
  exact ⟨h.1, h.2.1⟩

/-! ## Claim C7 - MissingCipher recovery -/

/-- The codec error the start/send retry recovers from
(psrpcore.MissingCipherError). -/
inductive CodecError where
  | MissingCipher
deriving DecidableEq, BEq

/-- The pool's key-exchange state: whether a serialization cipher has been
negotiated, and how many `exchange_key` round trips ran. -/
structure PoolKeyState where
  hasCipher : Bool
  exchangeCalls : Nat
deriving DecidableEq

/-- `AsyncRunspacePool.exchange_key` (_async.py lines 527-542) /
`RunspacePool.exchange_key` (_sync.py lines 265-272): after the
EncryptedSessionKey event arrives the pool holds a negotiated cipher. -/
def exchangeKey (k : PoolKeyState) : PoolKeyState :=
  { hasCipher := true, exchangeCalls := k.exchangeCalls + 1 }

/-- The codec-side pipeline start as the attempted operation sees it. -/
structure StartState where
  key : PoolKeyState
  startCalls : Nat
  started : Bool
deriving DecidableEq

/-- The external codec contract for `ClientPowerShell.start` /
`ClientPowerShell.invoke` (spec section 6 and glossary): it raises
MissingCipher exactly when the pipeline carries a secure string
(`needsCipher`) and no session key has been negotiated; otherwise the
pipeline is started.  The returned flag is `true` when MissingCipher was
raised. -/
def codecStart (needsCipher : Bool) (s : StartState) : StartState × Bool :=
  if needsCipher && !s.key.hasCipher then
    ({ s with startCalls := s.startCalls + 1 }, true)
  else
    ({ s with startCalls := s.startCalls + 1, started := true }, false)

/-- The start step of `invoke_async` (_async.py lines 928-932, and
identically _sync.py lines 451-455): try the codec start; on
MissingCipher run `exchange_key` and try once more; a second MissingCipher
would propagate. -/
def pipelineStartWithRetry (needsCipher : Bool) (s : StartState) :
    Except CodecError StartState :=
  let (s1, raised) := codecStart needsCipher s
  if raised then
    let s2 := { s1 with key := exchangeKey s1.key }
    let (s3, raised2) := codecStart needsCipher s2
    if raised2 then .error .MissingCipher else .ok s3
  else .ok s1

/-- The codec-side input feed as the per-item send sees it. -/
structure SendState (α : Type) where
  key : PoolKeyState
  sendCalls : Nat
  sent : List α
deriving DecidableEq

/-- The external codec contract for `ClientPowerShell.send` (spec section 6
and glossary): MissingCipher exactly when the item is a secure string and no
key is negotiated; otherwise the item is accepted in order. -/
def codecSend (secure : α → Bool) (v : α) (s : SendState α) :
    SendState α × Bool :=
  if secure v && !s.key.hasCipher then
    ({ s with sendCalls := s.sendCalls + 1 }, true)
  else
    ({ s with sendCalls := s.sendCalls + 1, sent := s.sent ++ [v] }, false)

/-- One input item of `invoke_async` (_async.py lines 952-958, and
identically _sync.py lines 462-468): try the codec send; on MissingCipher
run `exchange_key` and send the same item once more. -/
def sendItemWithRetry (secure : α → Bool) (v : α) (s : SendState α) :
    Except CodecError (SendState α) :=
  let (s1, raised) := codecSend secure v s
  if raised then
    let s2 := { s1 with key := exchangeKey s1.key }
    let (s3, raised2) := codecSend secure v s2
    if raised2 then .error .MissingCipher else .ok s3
  else .ok s1

/-- The input loop of `invoke_async` (`async for data in
input_gen(input_data)`, _async.py lines 952-963; `for data in input_data`,
_sync.py lines 462-473), item by item. -/
def sendInputWithRetry (secure : α → Bool) :
    List α → SendState α → Except CodecError (SendState α)
  | [], s => .ok s
  | v :: rest, s =>
      match sendItemWithRetry secure v s with
      | .error e => .error e
      | .ok s2 => sendInputWithRetry secure rest s2

/-- Each item send completes without MissingCipher, the item is delivered
exactly once, and a cipher once negotiated stays negotiated. -/
theorem sendItemWithRetry_ok (secure : α → Bool) (v : α) (s : SendState α) :
    sendItemWithRetry secure v s
      = .ok { key := { hasCipher := s.key.hasCipher || secure v
                       exchangeCalls := s.key.exchangeCalls
                         + (if secure v && !s.key.hasCipher then 1 else 0) }
              sendCalls := s.sendCalls
                + (if secure v && !s.key.hasCipher then 2 else 1)
              sent := s.sent ++ [v] } := by
  rcases s with ⟨⟨hc, ec⟩, sc, sent⟩
  by_cases hv : secure v = true <;> cases hc <;>
    simp [sendItemWithRetry, codecSend, exchangeKey, hv]

/-- Claim C7: starting the pipeline never surfaces MissingCipher — a raise
triggers exactly one key exchange and exactly one retried start (two codec
start calls in all; one when no cipher was needed or one was present) — and
the per-item input feed likewise recovers every item with the single-retry
pattern, delivering the whole input in order. -/
theorem c7_missing_cipher_retry (needsCipher : Bool) (s : StartState)
    (secure : α → Bool) (items : List α) (t : SendState α) :
    (∃ s2 : StartState, pipelineStartWithRetry needsCipher s = .ok s2 ∧
      s2.started = true ∧
      s2.startCalls = s.startCalls
        + (if needsCipher && !s.key.hasCipher then 2 else 1) ∧
      s2.key.exchangeCalls = s.key.exchangeCalls
        + (if needsCipher && !s.key.hasCipher then 1 else 0)) ∧
    (∃ t2 : SendState α, sendInputWithRetry secure items t = .ok t2 ∧
      t2.sent = t.sent ++ items) := by
  constructor
  · rcases s with ⟨⟨hc, ec⟩, sc, st⟩
    cases needsCipher <;> cases hc <;>
      simp [pipelineStartWithRetry, codecStart, exchangeKey]
  · induction items generalizing t with
    | nil => exact ⟨t, rfl, by simp⟩
    | cons v rest ih =>
      rw [sendInputWithRetry, sendItemWithRetry_ok]
      obtain ⟨t2, h2, hsent⟩ := ih _
      exact ⟨t2, h2, by simp [hsent]⟩

/-! ## Claims C2 and C8 - host calls -/

/-- Where a host method lives: the host itself, its `ui`, or the ui's
`raw_ui` (_host.py lines 444-513). -/
inductive HostTargetType where
  | host
  | ui
  | raw_ui
deriving DecidableEq, BEq

/-- The PSRP host method identifiers (psrpcore.types.HostMethodIdentifier),
exactly the keys of the dispatch table in _host.py lines 444-501. -/
inductive HostMethodIdentifier where
  | GetName
  | GetVersion
  | GetInstanceId
  | GetCurrentCulture
  | GetCurrentUICulture
  | SetShouldExit
  | EnterNestedPrompt
  | ExitNestedPrompt
  | NotifyBeginApplication
  | NotifyEndApplication
  | PushRunspace
  | PopRunspace
  | GetIsRunspacePushed
  | GetRunspace
  | ReadLine
  | ReadLineAsSecureString
  | Write1
  | Write2
  | WriteLine1
  | WriteLine2
  | WriteLine3
  | WriteErrorLine
  | WriteDebugLine
  | WriteProgress
  | WriteVerboseLine
  | WriteWarningLine
  | Prompt
  | PromptForCredential1
  | PromptForCredential2
  | PromptForChoice
  | PromptForChoiceMultipleSelection
  | GetForegroundColor
  | SetForegroundColor
  | GetBackgroundColor
  | SetBackgroundColor
  | GetCursorPosition
  | SetCursorPosition
  | GetWindowPosition
  | SetWindowPosition
  | GetCursorSize
  | SetCursorSize
  | GetBufferSize
  | SetBufferSize
  | GetWindowSize
  | SetWindowSize
  | GetWindowTitle
  | SetWindowTitle
  | GetMaxWindowSize
  | GetMaxPhysicalWindowSize
  | GetKeyAvailable
  | ReadKey
  | FlushInputBuffer
  | SetBufferContents1
  | SetBufferContents2
  | GetBufferContents
  | ScrollBufferContents
deriving DecidableEq, BEq

/-- The `(name, is_void, host_type)` dispatch table of `get_host_method`
(_host.py lines 444-501), entry for entry. -/
def hostMethodInfo : HostMethodIdentifier → String × Bool × HostTargetType
  | .GetName => ("get_name", false, .host)
  | .GetVersion => ("get_version", false, .host)
  | .GetInstanceId => ("get_instance_id", false, .host)
  | .GetCurrentCulture => ("get_current_culture", false, .host)
  | .GetCurrentUICulture => ("get_current_ui_culture", false, .host)
  | .SetShouldExit => ("set_should_exit", true, .host)
  | .EnterNestedPrompt => ("enter_nested_prompt", true, .host)
  | .ExitNestedPrompt => ("exit_nested_prompt", true, .host)
  | .NotifyBeginApplication => ("notify_begin_application", true, .host)
  | .NotifyEndApplication => ("notify_end_application", true, .host)
  | .PushRunspace => ("push_runspace", true, .host)
  | .PopRunspace => ("pop_runspace", true, .host)
  | .GetIsRunspacePushed => ("get_is_runspace_pushed", false, .host)
  | .GetRunspace => ("get_runspace", false, .host)
  | .ReadLine => ("read_line", false, .ui)
  | .ReadLineAsSecureString => ("read_line_as_secure_string", false, .ui)
  | .Write1 => ("write1", true, .ui)
  | .Write2 => ("write2", true, .ui)
  | .WriteLine1 => ("write_line1", true, .ui)
  | .WriteLine2 => ("write_line2", true, .ui)
  | .WriteLine3 => ("write_line3", true, .ui)
  | .WriteErrorLine => ("write_error_line", true, .ui)
  | .WriteDebugLine => ("write_debug_line", true, .ui)
  | .WriteProgress => ("write_progress", true, .ui)
  | .WriteVerboseLine => ("write_verbose_line", true, .ui)
  | .WriteWarningLine => ("write_warning_line", true, .ui)
  | .Prompt => ("prompt", false, .ui)
  | .PromptForCredential1 => ("prompt_for_credential1", false, .ui)
  | .PromptForCredential2 => ("prompt_for_credential2", false, .ui)
  | .PromptForChoice => ("prompt_for_choice", false, .ui)
  | .PromptForChoiceMultipleSelection =>
      ("prompt_for_choice_multiple_selection", false, .ui)
  | .GetForegroundColor => ("get_foreground_color", false, .raw_ui)
  | .SetForegroundColor => ("set_foreground_color", true, .raw_ui)
  | .GetBackgroundColor => ("get_background_color", false, .raw_ui)
  | .SetBackgroundColor => ("set_background_color", true, .raw_ui)
  | .GetCursorPosition => ("get_cursor_position", false, .raw_ui)
  | .SetCursorPosition => ("set_cursor_position", true, .raw_ui)
  | .GetWindowPosition => ("get_window_position", false, .raw_ui)
  | .SetWindowPosition => ("set_window_position", true, .raw_ui)
  | .GetCursorSize => ("get_cursor_size", false, .raw_ui)
  | .SetCursorSize => ("set_cursor_size", true, .raw_ui)
  | .GetBufferSize => ("get_buffer_size", false, .raw_ui)
  | .SetBufferSize => ("set_buffer_size", true, .raw_ui)
  | .GetWindowSize => ("get_window_size", false, .raw_ui)
  | .SetWindowSize => ("set_window_size", true, .raw_ui)
  | .GetWindowTitle => ("get_window_title", false, .raw_ui)
  | .SetWindowTitle => ("set_window_title", true, .raw_ui)
  | .GetMaxWindowSize => ("get_max_window_size", false, .raw_ui)
  | .GetMaxPhysicalWindowSize => ("get_max_physical_window_size", false, .raw_ui)
  | .GetKeyAvailable => ("get_key_available", false, .raw_ui)
  | .ReadKey => ("read_key", false, .raw_ui)
  | .FlushInputBuffer => ("flush_input_buffer", true, .raw_ui)
  | .SetBufferContents1 => ("set_buffer_contents1", true, .raw_ui)
  | .SetBufferContents2 => ("set_buffer_contents2", true, .raw_ui)
  | .GetBufferContents => ("get_buffer_contents", false, .raw_ui)
  | .ScrollBufferContents => ("scroll_buffer_contents", true, .raw_ui)

/-- A host-call argument: the PSRP wire shapes and the public shapes the
adaptation of _host.py lines 519-531 converts them to. -/
inductive HostParam where
  | int (n : Int)
  | str (s : String)
  | rawCoordinate (x y : Int)
  | coordinates (x y : Int)
  | rawSize (width height : Int)
  | size (width height : Int)
  | consoleColor (n : Int)
  | other
deriving DecidableEq, BEq

/-- What invoking a host method does: return a value, or raise an exception
whose `str` is `msg` and whose type qualname is `qualname`. -/
inductive InvokeOutcome where
  | success (returnValue : PSValue)
  | raises (msg : String) (qualname : String)
deriving DecidableEq, BEq

/-- `MethodMetadata` (_host.py lines 28-32): the void flag and, when the
method was found, the outcome of calling the bound `functools.partial`. -/
structure MethodMetadata where
  is_void : Bool
  invoke : Option InvokeOutcome

/-- A host raw-UI implementation as `getattr` sees it: names to methods.  A
method is a function of the (adapted) call parameters to its outcome. -/
structure PSHostRawUIModel where
  methods : String → Option (List HostParam → InvokeOutcome)

/-- A host UI implementation: its optional `raw_ui` and its methods. -/
structure PSHostUIModel where
  raw_ui : Option PSHostRawUIModel
  methods : String → Option (List HostParam → InvokeOutcome)

/-- A host: its optional `ui` and its own methods. -/
structure PSHostModel where
  ui : Option PSHostUIModel
  methods : String → Option (List HostParam → InvokeOutcome)

/-- The parameter adaptation of _host.py lines 519-533: the two color
setters take a ConsoleColor, the two position setters a Coordinates built
from the wire coordinate, the two size setters a Size built from the wire
size.  Every other method passes its parameters through.  (A wire payload
of the wrong shape raises inside Python and is not modelled; no claim
exercises these six methods' parameters.) -/
def adaptParams (mi : HostMethodIdentifier) (mp : List HostParam) :
    List HostParam :=
  if mi = .SetForegroundColor ∨ mi = .SetBackgroundColor then
    match mp with
    | .int n :: _ => [.consoleColor n]
    | _ => mp
  else if mi = .SetCursorPosition ∨ mi = .SetWindowPosition then
    match mp with
    | .rawCoordinate x y :: _ => [.coordinates x y]
    | _ => mp
  else if mi = .SetBufferSize ∨ mi = .SetWindowSize then
    match mp with
    | .rawSize w h :: _ => [.size w h]
    | _ => mp
  else mp

/-- `get_host_method` (_host.py lines 425-535): look the identifier up in
the table, walk into `ui` / `raw_ui` as the target says — an absent subtree
yields `MethodMetadata(is_void, None)` — then `getattr` the method name
(absent name also yields `invoke = None`), adapt the parameters and bind
them. -/
def get_host_method (host : PSHostModel) (mi : HostMethodIdentifier)
    (mp : List HostParam) : MethodMetadata :=
  let info := hostMethodInfo mi
  let name := info.1
  let is_void := info.2.1
  let lookup : (String → Option (List HostParam → InvokeOutcome)) → MethodMetadata :=
    fun methods =>
      match methods name with
      | none => { is_void := is_void, invoke := none }
      | some f => { is_void := is_void, invoke := some (f (adaptParams mi mp)) }
  match info.2.2 with
  | .host => lookup host.methods
  | .ui =>
      match host.ui with
      | none => { is_void := is_void, invoke := none }
      | some ui => lookup ui.methods
  | .raw_ui =>
      match host.ui with
      | none => { is_void := is_void, invoke := none }
      | some ui =>
          match ui.raw_ui with
          | none => { is_void := is_void, invoke := none }
          | some r => lookup r.methods

/-- A host response queued through `host_response(ci, return_value,
error_record)` on the codec pool (_async.py line 714, _sync.py line 575). -/
structure HostResponse where
  ci : Int
  return_value : Option PSValue
  error_record : Option ErrorRecord
deriving DecidableEq

/-- What `AsyncRunspacePool._invoke_host_call` did: the error stream it was
given after the call, the host responses it queued, and its return value
(the queued-data flag). -/
structure HostCallOutcome where
  error_stream : List ErrorRecord
  responses : List HostResponse
  queued_data : Bool
deriving DecidableEq

/-- `AsyncRunspacePool._invoke_host_call` (_async.py lines 670-717) given
the already-resolved metadata of line 680.  Calling an absent method
(`invoke = None`) raises `TypeError("'NoneType' object is not callable")`
(line 688), caught like any other failure.  An empty exception message
becomes `f"{type(e).__qualname__} when running {mi!s}"` (lines 696-697);
`miStr` stands for `str(mi)`.  On failure an ErrorRecord with
FullyQualifiedErrorId "RemoteHostExecutionException" is synthesized (lines
700-706); a failed void call appends it to the error stream and returns
False (lines 708-711); a non-void call queues one host response — return
value on success, error record on failure — and returns True (lines
713-715); a successful void call returns False (line 717). -/
def asyncInvokeHostCall (meta : MethodMetadata) (ci : Int) (miStr : String)
    (error_stream : List ErrorRecord) : HostCallOutcome :=
  let outcome : InvokeOutcome :=
    match meta.invoke with
    | some o => o
    | none => .raises "'NoneType' object is not callable" "TypeError"
  match outcome with
  | .success rv =>
      if meta.is_void then
        { error_stream := error_stream, responses := [], queued_data := false }
      else
        { error_stream := error_stream
          responses := [{ ci := ci, return_value := some rv, error_record := none }]
          queued_data := true }
  | .raises msg qualname =>
      let e_msg := if msg = "" then qualname ++ " when running " ++ miStr else msg
      let record : ErrorRecord :=
        { exceptionMessage := e_msg
          fullyQualifiedErrorId := "RemoteHostExecutionException"
          categoryReason := "Exception" }
      if meta.is_void then
        { error_stream := error_stream ++ [record], responses := []
          queued_data := false }
      else
        { error_stream := error_stream
          responses := [{ ci := ci, return_value := none, error_record := some record }]
          queued_data := true }

/-- What `Pipeline._on_host_call` did: the error stream after the call, the
queued host responses, how many times it called `send_all`, and whether it
called `self.stop()`. -/
structure SyncHostCallOutcome where
  error_stream : List ErrorRecord
  responses : List HostResponse
  send_all_calls : Nat
  stop_called : Bool
deriving DecidableEq

/-- `Pipeline._on_host_call` (_sync.py lines 535-576) given the resolved
metadata.  An absent method runs `_not_implemented()` which raises a bare
`NotImplementedError` (lines 40-41, 549) whose `str` is empty, so the
message becomes `"NotImplementedError when running " + str(mi)`.  A failed
void call appends the synthesized record to the error stream, then calls
`self.stop()` and returns (lines 568-571); a non-void call queues one host
response and flushes with `send_all` (lines 574-576). -/
def syncOnHostCall (meta : MethodMetadata) (ci : Int) (miStr : String)
    (error_stream : List ErrorRecord) : SyncHostCallOutcome :=
  let outcome : InvokeOutcome :=
    match meta.invoke with
    | some o => o
    | none => .raises "" "NotImplementedError"
  match outcome with
  | .success rv =>
      if meta.is_void then
        { error_stream := error_stream, responses := [], send_all_calls := 0
          stop_called := false }
      else
        { error_stream := error_stream
          responses := [{ ci := ci, return_value := some rv, error_record := none }]
          send_all_calls := 1, stop_called := false }
  | .raises msg qualname =>
      let e_msg := if msg = "" then qualname ++ " when running " ++ miStr else msg
      let record : ErrorRecord :=
        { exceptionMessage := e_msg
          fullyQualifiedErrorId := "RemoteHostExecutionException"
          categoryReason := "Exception" }
      if meta.is_void then
        { error_stream := error_stream ++ [record], responses := []
          send_all_calls := 0, stop_called := true }
      else
        { error_stream := error_stream
          responses := [{ ci := ci, return_value := none, error_record := some record }]
          send_all_calls := 1, stop_called := false }

/-- Whether invoking the resolved method raises (an absent method raises
too, in both facades). -/
def callFails (meta : MethodMetadata) : Bool :=
  match meta.invoke with
  | some (.success _) => false
  | _ => true

/-- Claim C2 counterexample: in the sync facade a failing void host call
does append exactly one error record and queue no response, but it also
calls `self.stop()` on the pipeline — event processing does not simply
continue as it does in the async facade. -/
theorem c2_counterexample :
    (syncOnHostCall { is_void := true, invoke := some (.raises "boom" "Exception") }
        1 "SetShouldExit" []).stop_called = true ∧
    (syncOnHostCall { is_void := true, invoke := some (.raises "boom" "Exception") }
        1 "SetShouldExit" []).error_stream.length = 1 ∧
    (syncOnHostCall { is_void := true, invoke := some (.raises "boom" "Exception") }
        1 "SetShouldExit" []).responses = [] := by
  refine ⟨rfl, rfl, rfl⟩

/-- Claim C2 amended: for every resolved host call, in both facades — a
non-void call queues exactly one host response (the return value on
success, an ErrorRecord with FullyQualifiedErrorId
"RemoteHostExecutionException" on failure) and leaves the error stream
untouched; a failing void call appends exactly one such ErrorRecord to the
error stream and queues no response; a successful void call does neither.
In the async facade the handler then simply returns (event processing
continues); the sync facade additionally calls `stop()` on the pipeline
exactly when a void call failed. -/
theorem c2_host_call_effects (meta : MethodMetadata) (ci : Int)
    (miStr : String) (es : List ErrorRecord) :
    (asyncInvokeHostCall meta ci miStr es).responses.length
      = (if meta.is_void then 0 else 1) ∧
    (asyncInvokeHostCall meta ci miStr es).error_stream.length
      = es.length + (if meta.is_void && callFails meta then 1 else 0) ∧
    (asyncInvokeHostCall meta ci miStr es).queued_data = !meta.is_void ∧
    (((asyncInvokeHostCall meta ci miStr es).error_stream.drop es.length).all
        fun rec => rec.fullyQualifiedErrorId == "RemoteHostExecutionException") = true ∧
    (∀ rv : PSValue, meta.invoke = some (.success rv) → meta.is_void = false →
      (asyncInvokeHostCall meta ci miStr es).responses
        = [{ ci := ci, return_value := some rv, error_record := none }]) ∧
    (callFails meta = true → meta.is_void = false →
      ∃ rec : ErrorRecord,
        (asyncInvokeHostCall meta ci miStr es).responses
          = [{ ci := ci, return_value := none, error_record := some rec }] ∧
        rec.fullyQualifiedErrorId = "RemoteHostExecutionException") ∧
    (syncOnHostCall meta ci miStr es).responses.length
      = (if meta.is_void then 0 else 1) ∧
    (syncOnHostCall meta ci miStr es).error_stream.length
      = es.length + (if meta.is_void && callFails meta then 1 else 0) ∧
    (syncOnHostCall meta ci miStr es).stop_called
      = (meta.is_void && callFails meta) := by
  rcases meta with ⟨void, inv⟩
  rcases inv with _ | o
  · cases void <;>
      simp [asyncInvokeHostCall, syncOnHostCall, callFails]
  · rcases o with rv | ⟨msg, qualname⟩
    · cases void <;>
        simp [asyncInvokeHostCall, syncOnHostCall, callFails]
    · cases void <;>
        simp [asyncInvokeHostCall, syncOnHostCall, callFails]

/-- A host with no UI implementation (`PSHost(ui=None)`). -/
def hostNoUI : PSHostModel :=
  { ui := none, methods := fun _ => none }

/-- A UI with no raw-UI implementation (`PSHostUI(raw_ui=None)`). -/
def uiNoRawUI : PSHostUIModel :=
  { raw_ui := none, methods := fun _ => none }

/-- A host whose `ui` is present but whose `ui.raw_ui` is absent
(`PSHost(ui=PSHostUI())`). -/
def hostNoRawUI : PSHostModel :=
  { ui := some uiNoRawUI, methods := fun _ => none }

/-- The walk of _host.py lines 503-513 finds the identifier's target
subtree absent: a `ui` or `raw_ui` method with `host.ui` absent, or a
`raw_ui` method with `host.ui` present but `ui.raw_ui` absent.  (A `host`
target needs no subtree.) -/
def subtreeAbsent (host : PSHostModel) (mi : HostMethodIdentifier) : Bool :=
  match (hostMethodInfo mi).2.2 with
  | .host => false
  | .ui => host.ui.isNone
  | .raw_ui =>
      match host.ui with
      | none => true
      | some ui => ui.raw_ui.isNone

/-- Claim C8 counterexample: a void host call (WriteLine2 targets `ui`)
against a host whose `ui` subtree is absent is not silently dropped: the
async handler appends the synthesized error record to the error stream.  (It
does queue no response, as the claim says.) -/
theorem c8_counterexample :
    asyncInvokeHostCall (get_host_method hostNoUI .WriteLine2 [.str "hi"])
        1 "WriteLine2" []
      = { error_stream := [{ exceptionMessage := "'NoneType' object is not callable"
                             fullyQualifiedErrorId := "RemoteHostExecutionException"
                             categoryReason := "Exception" }]
          responses := []
          queued_data := false } := by
  rfl

/-- Claim C8 amended: a host call whose target subtree (`ui` or `raw_ui`)
is absent resolves to `invoke = None` and is handled as a failed
invocation: a non-void call sends back one host response carrying an
ErrorRecord with FullyQualifiedErrorId "RemoteHostExecutionException" and
leaves the error stream untouched; a void call is not silently dropped — the
async handler appends that record to the error stream (queueing no
response), and the sync handler appends it and additionally stops the
pipeline. -/
theorem c8_absent_subtree (host : PSHostModel) (mi : HostMethodIdentifier)
    (mp : List HostParam) (ci : Int) (miStr : String) (es : List ErrorRecord)
    (habs : subtreeAbsent host mi = true) :
    (get_host_method host mi mp).invoke = none ∧
    (get_host_method host mi mp).is_void = (hostMethodInfo mi).2.1 ∧
    ((hostMethodInfo mi).2.1 = false →
      ∃ rec : ErrorRecord,
        asyncInvokeHostCall (get_host_method host mi mp) ci miStr es
          = { error_stream := es
              responses := [{ ci := ci, return_value := none, error_record := some rec }]
              queued_data := true } ∧
        rec.fullyQualifiedErrorId = "RemoteHostExecutionException") ∧
    ((hostMethodInfo mi).2.1 = true →
      ∃ rec : ErrorRecord,
        asyncInvokeHostCall (get_host_method host mi mp) ci miStr es
          = { error_stream := es ++ [rec], responses := [], queued_data := false } ∧
        rec.fullyQualifiedErrorId = "RemoteHostExecutionException") ∧
    ((hostMethodInfo mi).2.1 = true →
      (syncOnHostCall (get_host_method host mi mp) ci miStr es).stop_called = true ∧
      (syncOnHostCall (get_host_method host mi mp) ci miStr es).error_stream.length
        = es.length + 1) := by
  have hmeta : get_host_method host mi mp
      = { is_void := (hostMethodInfo mi).2.1, invoke := none } := by
    unfold subtreeAbsent at habs
    rcases htt : (hostMethodInfo mi).2.2 with _ | _ | _ <;> rw [htt] at habs
    · exact absurd habs (by simp)
    · rcases hu : host.ui with _ | ui
      · simp [get_host_method, htt, hu]
      · rw [hu] at habs
        simp at habs
    · rcases hu : host.ui with _ | ui
      · simp [get_host_method, htt, hu]
      · rw [hu] at habs
        simp at habs
        simp [get_host_method, htt, hu, habs]
  rw [hmeta]
  refine ⟨rfl, rfl, ?_, ?_, ?_⟩
  · intro hv
    exact ⟨{ exceptionMessage := "'NoneType' object is not callable"
             fullyQualifiedErrorId := "RemoteHostExecutionException"
             categoryReason := "Exception" },
      by simp [asyncInvokeHostCall, hv], rfl⟩
  · intro hv
    exact ⟨{ exceptionMessage := "'NoneType' object is not callable"
             fullyQualifiedErrorId := "RemoteHostExecutionException"
             categoryReason := "Exception" },
      by simp [asyncInvokeHostCall, hv], rfl⟩
  · intro hv
    constructor <;> simp [syncOnHostCall, hv]

/-- Witness for the amended C8 at both absence shapes: ReadLine (non-void,
targets `ui`) against the UI-less host, and GetForegroundColor (non-void,
targets `raw_ui`) against the host whose `ui` is present but whose `raw_ui`
is absent. -/
theorem c8_absent_subtree_witness :
    (get_host_method hostNoUI .ReadLine []).invoke = none ∧
    (∃ rec : ErrorRecord,
      asyncInvokeHostCall (get_host_method hostNoUI .ReadLine []) 7 "ReadLine" []
        = { error_stream := []
            responses := [{ ci := 7, return_value := none, error_record := some rec }]
            queued_data := true } ∧
      rec.fullyQualifiedErrorId = "RemoteHostExecutionException") ∧
    (get_host_method hostNoRawUI .GetForegroundColor []).invoke = none ∧
    (∃ rec : ErrorRecord,
      asyncInvokeHostCall (get_host_method hostNoRawUI .GetForegroundColor [])
          8 "GetForegroundColor" []
        = { error_stream := []
            responses := [{ ci := 8, return_value := none, error_record := some rec }]
            queued_data := true } ∧
      rec.fullyQualifiedErrorId = "RemoteHostExecutionException") := by
  have h1 := c8_absent_subtree hostNoUI .ReadLine [] 7 "ReadLine" [] rfl
  have h2 := c8_absent_subtree hostNoRawUI .GetForegroundColor []
    8 "GetForegroundColor" [] rfl
  exact ⟨h1.1, h1.2.2.1 rfl, h2.1, h2.2.2.1 rfl⟩

/-! ## Claim C10 - fluent builder methods -/

/-- One recorded fluent mutation on the codec's `ClientPowerShell` (spec
section 6: the codec pipeline exposes fluent mutation; psrpcore is an
external collaborator, so the mutations are modelled as an ordered
record). -/
inductive BuilderCall where
  | command (cmdlet : String) (use_local_scope : Option Bool)
  | argument (value : PSValue)
  | parameter (name : String) (value : PSValue)
  | parameters (entries : List (String × PSValue))
  | script (text : String) (use_local_scope : Option Bool)
  | statement
deriving DecidableEq, BEq

/-- The codec's `ClientPowerShell` at the interface the builders use. -/
structure ClientPowerShellM where
  calls : List BuilderCall
deriving DecidableEq

/-- `AsyncPowerShell`: the wrapped codec pipeline (`self._pipeline`). -/
structure AsyncPowerShellM where
  pipeline : ClientPowerShellM
deriving DecidableEq

/-- The sync `PowerShell`: the wrapped codec pipeline (`self.pipeline`). -/
structure PowerShellM where
  pipeline : ClientPowerShellM
deriving DecidableEq

/-- A builder method's Python result: the object state after the call and
the value the method returned — `some` of the updated instance for
`return self`, `none` for a method that falls off its end (returns
`None`). -/
structure FluentReturn (σ : Type) where
  state : σ
  returned : Option σ
deriving DecidableEq

/-- _async.py lines 1230-1259: `self._pipeline.add_command(cmdlet,
use_local_scope); return self`. -/
def AsyncPowerShellM.add_command (ps : AsyncPowerShellM) (cmdlet : String)
    (use_local_scope : Option Bool) : FluentReturn AsyncPowerShellM :=
  let ps2 : AsyncPowerShellM :=
    { pipeline := { calls := ps.pipeline.calls ++ [.command cmdlet use_local_scope] } }
  { state := ps2, returned := some ps2 }

/-- _async.py lines 1212-1228: `self._pipeline.add_argument(value); return
self`. -/
def AsyncPowerShellM.add_argument (ps : AsyncPowerShellM) (value : PSValue) :
    FluentReturn AsyncPowerShellM :=
  let ps2 : AsyncPowerShellM :=
    { pipeline := { calls := ps.pipeline.calls ++ [.argument value] } }
  { state := ps2, returned := some ps2 }

/-- _async.py lines 1261-1282: `self._pipeline.add_parameter(name, value);
return self`. -/
def AsyncPowerShellM.add_parameter (ps : AsyncPowerShellM) (name : String)
    (value : PSValue) : FluentReturn AsyncPowerShellM :=
  let ps2 : AsyncPowerShellM :=
    { pipeline := { calls := ps.pipeline.calls ++ [.parameter name value] } }
  { state := ps2, returned := some ps2 }

/-- _async.py lines 1284-1301: `self._pipeline.add_parameters(**parameters);
return self`. -/
def AsyncPowerShellM.add_parameters (ps : AsyncPowerShellM)
    (entries : List (String × PSValue)) : FluentReturn AsyncPowerShellM :=
  let ps2 : AsyncPowerShellM :=
    { pipeline := { calls := ps.pipeline.calls ++ [.parameters entries] } }
  { state := ps2, returned := some ps2 }

/-- _async.py lines 1303-1324: `self._pipeline.add_script(script,
use_local_scope); return self`. -/
def AsyncPowerShellM.add_script (ps : AsyncPowerShellM) (text : String)
    (use_local_scope : Option Bool) : FluentReturn AsyncPowerShellM :=
  let ps2 : AsyncPowerShellM :=
    { pipeline := { calls := ps.pipeline.calls ++ [.script text use_local_scope] } }
  { state := ps2, returned := some ps2 }

/-- _async.py lines 1326-1336: `self._pipeline.add_statement(); return
self`. -/
def AsyncPowerShellM.add_statement (ps : AsyncPowerShellM) :
    FluentReturn AsyncPowerShellM :=
  let ps2 : AsyncPowerShellM :=
    { pipeline := { calls := ps.pipeline.calls ++ [.statement] } }
  { state := ps2, returned := some ps2 }

/-- _sync.py lines 623-628: `self.pipeline.add_command(cmdlet,
use_local_scope)` with no return statement — the method returns `None`.
(The sync `PowerShell` defines no `add_argument`, `add_parameter` or
`add_parameters` at all.) -/
def PowerShellM.add_command (ps : PowerShellM) (cmdlet : String)
    (use_local_scope : Option Bool) : FluentReturn PowerShellM :=
  let ps2 : PowerShellM :=
    { pipeline := { calls := ps.pipeline.calls ++ [.command cmdlet use_local_scope] } }
  { state := ps2, returned := none }

/-- _sync.py lines 630-636: `self.pipeline.add_script(script,
use_local_scope); return self`. -/
def PowerShellM.add_script (ps : PowerShellM) (text : String)
    (use_local_scope : Option Bool) : FluentReturn PowerShellM :=
  let ps2 : PowerShellM :=
    { pipeline := { calls := ps.pipeline.calls ++ [.script text use_local_scope] } }
  { state := ps2, returned := some ps2 }

/-- _sync.py lines 638-640: `self.pipeline.add_statement(); return self`. -/
def PowerShellM.add_statement (ps : PowerShellM) : FluentReturn PowerShellM :=
  let ps2 : PowerShellM :=
    { pipeline := { calls := ps.pipeline.calls ++ [.statement] } }
  { state := ps2, returned := some ps2 }

/-- Claim C10 counterexample: the sync `PowerShell.add_command` returns
`None`, not the pipeline instance, so it cannot be chained. -/
theorem c10_counterexample :
    (PowerShellM.add_command { pipeline := { calls := [] } } "Get-Item" none).returned
      = none := by
  rfl

/-- Claim C10 amended: in the async facade all six builder methods
(`add_command`, `add_argument`, `add_parameter`, `add_parameters`,
`add_script`, `add_statement`) return the same (updated) pipeline instance
and append their mutation in order, so calls chain; in the sync facade only
`add_script` and `add_statement` return the instance — `add_command`
returns `None`, and `add_argument`, `add_parameter` and `add_parameters` do
not exist. -/
theorem c10_fluent_builders (a : AsyncPowerShellM) (p : PowerShellM)
    (cmdlet text name : String) (v : PSValue) (uls : Option Bool)
    (entries : List (String × PSValue)) :
    (a.add_command cmdlet uls).returned = some (a.add_command cmdlet uls).state ∧
    (a.add_argument v).returned = some (a.add_argument v).state ∧
    (a.add_parameter name v).returned = some (a.add_parameter name v).state ∧
    (a.add_parameters entries).returned = some (a.add_parameters entries).state ∧
    (a.add_script text uls).returned = some (a.add_script text uls).state ∧
    a.add_statement.returned = some a.add_statement.state ∧
    (p.add_script text uls).returned = some (p.add_script text uls).state ∧
    p.add_statement.returned = some p.add_statement.state ∧
    (p.add_command cmdlet uls).returned = none ∧
    ((a.add_command cmdlet uls).state.pipeline.calls
      = a.pipeline.calls ++ [.command cmdlet uls]) ∧
    (((a.add_command cmdlet uls).state.add_script text uls).state.pipeline.calls
      = a.pipeline.calls ++ [.command cmdlet uls, .script text uls]) := by
  refine ⟨rfl, rfl, rfl, rfl, rfl, rfl, rfl, rfl, rfl, rfl, ?_⟩
  simp [AsyncPowerShellM.add_command, AsyncPowerShellM.add_script]

end Psrp
